import Mathlib

/-!
Verification development for the WaitWhat clarity-analysis repository.

The frontend (Next.js) source is embedded directly: the results page
(`formatTime`, `pickTone`, `mapBackendToIssues`, `getIconForType`, the
timeline marker colour), the `/api/analyze` proxy route and the
`/api/video/[filename]` route.  The Python backend pipeline (Windower,
signal extractors, risk scorer, issue synthesizer, clarity aggregator)
is not present in the repository snapshot; those components are modelled
from the specification, each such definition carrying a doc comment that
says so.
-/

namespace WaitWhat

/-- Left-pads the decimal numeral of `n` with a zero when it is shorter
than two characters, matching the JavaScript idiom
`String(n).padStart(2, char0)` used by `formatTime` (a `Nat` numeral is
never empty, so a single pad character suffices exactly as in JS). -/
def pad2 (n : Nat) : String :=
  let s := toString n
  if s.length < 2 then "0" ++ s else s

/-- A JavaScript number as seen by `formatTime`: NaN, the two infinities,
or a finite value (modelled as a rational). -/
inductive JsNum where
  | nan
  | posInf
  | negInf
  | finite (q : ℚ)

/-- Core of `formatTime` from the results page, after the guard has
reduced the input to the non-negative integer `Math.floor(seconds)`:
`h = floor(s/3600)`, `m = floor((s % 3600)/60)`, `sec = s % 60`, and the
string is `h:mm:ss` when `h > 0`, else `m:ss`. -/
def formatTimeNat (s : Nat) : String :=
  let h := s / 3600
  let m := (s % 3600) / 60
  let sec := s % 60
  if h > 0 then toString h ++ ":" ++ pad2 m ++ ":" ++ pad2 sec
  else toString m ++ ":" ++ pad2 sec

/-- `formatTime` from the results page: non-finite or negative input
returns `0:00`; otherwise the value is floored and formatted. -/
def formatTime (seconds : JsNum) : String :=
  match seconds with
  | .finite q => if q < 0 then "0:00" else formatTimeNat ⌊q⌋.toNat
  | _ => "0:00"

/-- The claim-side restatement of `formatTime`: `h:mm:ss` exactly when
`floor(s) ≥ 3600` with minutes `(s/60) % 60` and seconds `s % 60` both
zero-padded, else `m:ss` with minutes `s/60`; `0:00` for every negative,
NaN or infinite input.  Used to compare the source function against the
specification wording. -/
def formatTimeClaimNat (s : Nat) : String :=
  if s ≥ 3600 then
    toString (s / 3600) ++ ":" ++ pad2 ((s / 60) % 60) ++ ":" ++ pad2 (s % 60)
  else toString (s / 60) ++ ":" ++ pad2 (s % 60)

/-- Claim-side restatement of `formatTime` on JavaScript numbers. -/
def formatTimeClaim (seconds : JsNum) : String :=
  match seconds with
  | .finite q => if q < 0 then "0:00" else formatTimeClaimNat ⌊q⌋.toNat
  | _ => "0:00"

theorem formatTimeNat_eq_claim (n : Nat) : formatTimeNat n = formatTimeClaimNat n := by
  unfold formatTimeNat formatTimeClaimNat
  by_cases h : n ≥ 3600
  · have h1 : n / 3600 > 0 := Nat.div_pos h (by norm_num)
    rw [if_pos h1, if_pos h]
    have hm : (n % 3600) / 60 = (n / 60) % 60 := by omega
    rw [hm]
  · have h1 : ¬ n / 3600 > 0 := by omega
    rw [if_neg h1, if_neg h]
    have hm : (n % 3600) / 60 = n / 60 := by omega
    rw [hm]

/-- The optional `tone` object of a backend segment as typed on the
results page: each of the three keys may be absent. -/
structure ToneMap where
  kind : Option String
  honest : Option String
  brutal : Option String
deriving DecidableEq, Repr

/-- `BackendSegment` from the results page (the shape of one element of
`analysis.segments`); `tone` itself is optional. -/
structure BackendSegment where
  segment_id : Int
  start_sec : ℚ
  end_sec : ℚ
  risk : ℚ
  severity : String
  label : String
  fix : String
  tone : Option ToneMap
deriving DecidableEq, Repr

/-- `BackendAnalysis` from the results page. -/
structure BackendAnalysis where
  run_id : String
  video_id : String
  video_title : String
  clarity_score : ℚ
  clarity_tier : String
  segments : List BackendSegment
deriving DecidableEq, Repr

/-- The `Issue.type` union of the results page. -/
inductive IssueType where
  | warning
  | error
  | success
deriving DecidableEq, Repr

/-- The `Issue` interface of the results page. -/
structure Issue where
  id : String
  type : IssueType
  title : String
  description : String
  timestamp : String
  segmentId : Int
  startSec : ℚ
  endSec : ℚ
  fix : String
deriving DecidableEq, Repr

/-- The tone key selected by `pickTone` for a given intensity string:
`0` reads `kind`, `2` reads `brutal`, anything else reads `honest`. -/
def toneKey (intensity : String) : ToneMap → Option String :=
  if intensity = "0" then ToneMap.kind
  else if intensity = "2" then ToneMap.brutal
  else ToneMap.honest

/-- `pickTone` from the results page.  The source reads
`seg.tone?.[key] ?? seg.fix ?? seg.label`; since `fix` is a required
string field of `BackendSegment`, the final `?? seg.label` step never
engages, so the fallback chain reduces to defaulting to `fix`. -/
def pickTone (intensity : String) (seg : BackendSegment) : String :=
  (seg.tone.bind (toneKey intensity)).getD seg.fix

/-- Whether `pickTone` had to take its fallback (to `fix`, and behind it
`label`) because the selected tone entry was absent. -/
def pickToneFellBack (intensity : String) (seg : BackendSegment) : Prop :=
  seg.tone.bind (toneKey intensity) = none

instance (intensity : String) (seg : BackendSegment) :
    Decidable (pickToneFellBack intensity seg) := by
  unfold pickToneFellBack; infer_instance

/-- The severity-to-type conditional inside `mapBackendToIssues`:
`seg.severity === high ? error : seg.severity === medium ? warning : warning`
(the redundant third branch is kept as written). -/
def severityToType (severity : String) : IssueType :=
  if severity = "high" then .error
  else if severity = "medium" then .warning
  else .warning

/-- `mapBackendToIssues` from the results page, with the enclosing
component state `selectedIntensity` made an explicit argument. -/
def mapBackendToIssues (intensity : String) (a : BackendAnalysis) : List Issue :=
  a.segments.map fun seg =>
    { id := toString seg.segment_id
      type := severityToType seg.severity
      title := seg.label
      description := pickTone intensity seg
      timestamp := formatTime (.finite seg.start_sec)
      segmentId := seg.segment_id
      startSec := seg.start_sec
      endSec := seg.end_sec
      fix := seg.fix }

/-- Every `Issue` field except `description` (the only field of
`mapBackendToIssues` output that depends on the intensity setting). -/
structure IssueCore where
  id : String
  type : IssueType
  title : String
  timestamp : String
  segmentId : Int
  startSec : ℚ
  endSec : ℚ
  fix : String
deriving DecidableEq, Repr

/-- Projection of an `Issue` onto all fields except `description`. -/
def Issue.core (i : Issue) : IssueCore :=
  ⟨i.id, i.type, i.title, i.timestamp, i.segmentId, i.startSec, i.endSec, i.fix⟩

/-- The three icon shapes `getIconForType` can render. -/
inductive Icon where
  | warningIcon
  | errorIcon
  | successIcon
deriving DecidableEq, Repr

/-- `getIconForType` from the results page, reduced to which of the
three icons the branches render: yellow triangle for `warning`, red
cross for `error`, green check otherwise. -/
def getIconForType (t : String) : Icon :=
  if t = "warning" then .warningIcon
  else if t = "error" then .errorIcon
  else .successIcon

/-- The string an `IssueType` value carries at runtime. -/
def issueTypeString : IssueType → String
  | .warning => "warning"
  | .error => "error"
  | .success => "success"

/-- The timeline marker colour conditional of the results page:
`error ? bg-red-500 : warning ? bg-yellow-500 : bg-green-500`. -/
def markerColor (t : IssueType) : String :=
  if t = .error then "bg-red-500"
  else if t = .warning then "bg-yellow-500"
  else "bg-green-500"

/-- The fields of a parsed backend JSON body that the analyze route
inspects on failure (`payload?.detail ?? payload?.message`); the body as
a whole is what the route forwards as `analysis` on success. -/
structure JsonPayload where
  detail : Option String
  message : Option String
deriving DecidableEq, Repr

/-- The backend `fetch` result seen by the analyze route: `res.ok`, the
HTTP status, and the parsed body (`none` models `res.json()` rejecting,
which the route catches and turns into `null`). -/
structure BackendHttpResp where
  ok : Bool
  status : Nat
  payload : Option JsonPayload
deriving DecidableEq, Repr

/-- The JSON response the analyze route produces. -/
structure AnalyzeResponse where
  status : Nat
  success : Bool
  error : Option String
  analysis : Option JsonPayload
deriving DecidableEq, Repr

/-- Result of one analyze request: the response plus whether the route
forwarded the request to the backend at all. -/
structure AnalyzeOutcome where
  response : AnalyzeResponse
  backendCalled : Bool
deriving DecidableEq, Repr

/-- The `POST` handler of the analyze route.  `bodyVideoId` is the
`video_id` field extracted from the request body after
`req.json().catch(() => ({}))`: `none` covers both an unparseable body
and a body without `video_id`.  The guard in the source is the
JavaScript falsiness check `!body?.video_id`, which for a string field
is true when the field is absent and also when it is the empty string —
both take the 400 branch without forwarding.  `backend` is the proxied
`POST {BACKEND_BASE_URL}/analyze` call. -/
def analyzePOST (bodyVideoId : Option String)
    (backend : String → BackendHttpResp) : AnalyzeOutcome :=
  match bodyVideoId with
  | none => ⟨⟨400, false, some "Missing video_id", none⟩, false⟩
  | some vid =>
      if vid = "" then ⟨⟨400, false, some "Missing video_id", none⟩, false⟩
      else
        let r := backend vid
        if r.ok then
          ⟨⟨200, true, none, r.payload⟩, true⟩
        else
          ⟨⟨r.status, false,
            some ((r.payload.bind JsonPayload.detail).getD
              ((r.payload.bind JsonPayload.message).getD "Analyze failed")),
            none⟩, true⟩

/-- Outcome of the filesystem interaction in the video route for one
path under the uploads directory: the file is absent (`existsSync`
false), present with a size and readable, or present but `stat`/
`readFile` throws. -/
inductive FsOutcome where
  | absent
  | present (size : Nat)
  | faulted
deriving DecidableEq, Repr

/-- JavaScript-style split of a character list at every occurrence of
`c`, matching `String.prototype.split` with a one-character separator
(the result is never empty; a separator at the end contributes a final
empty piece, exactly as in JS). -/
def splitOnChar (c : Char) (l : List Char) : List (List Char) :=
  match l with
  | [] => [[]]
  | x :: xs =>
      let r := splitOnChar c xs
      if x = c then [] :: r
      else
        match r with
        | [] => [[x]]
        | y :: ys => (x :: y) :: ys

/-- The lower-cased extension computed by the video route,
`filename.split(char-dot).pop()?.toLowerCase()`, as a character list
(`pop` of the never-empty split result). -/
def extOf (filename : String) : List Char :=
  ((splitOnChar ('.' : Char) filename.data).getLast?.getD []).map Char.toLower

/-- The content-type computation of the video route: the if-chain over
the lower-cased extension, covering `webm`, `ogg`, `mov` and `avi` and
defaulting to `video/mp4`. -/
def contentTypeFor (filename : String) : String :=
  let ext := extOf filename
  if ext = "webm".data then "video/webm"
  else if ext = "ogg".data then "video/ogg"
  else if ext = "mov".data then "video/quicktime"
  else if ext = "avi".data then "video/x-msvideo"
  else "video/mp4"

/-- The response the video route produces. -/
structure VideoResponse where
  status : Nat
  contentType : Option String
  contentLength : Option Nat
  errorMsg : Option String
deriving DecidableEq, Repr

/-- The `GET` handler of the video route: 404 when the file is absent,
200 with the file bytes, its size as `Content-Length` and the
extension-derived `Content-Type` when present, and the catch-all 500
when `stat` or `readFile` throws. -/
def videoGET (filename : String) (fs : String → FsOutcome) : VideoResponse :=
  match fs filename with
  | .absent => ⟨404, none, none, some "Video not found"⟩
  | .present size => ⟨200, some (contentTypeFor filename), some size, none⟩
  | .faulted => ⟨500, none, none, some "Failed to load video"⟩

namespace Backend

/-- Modelled from the spec: one utterance of a Transcript as supplied by
the video-indexing collaborator — start time, end time (seconds) and
spoken text.  The backend windowing code is not in the repository
snapshot. -/
structure Utterance where
  start_sec : ℚ
  end_sec : ℚ
  text : String
deriving DecidableEq, Repr

/-- Modelled from the spec: total duration of a transcript, the upper
end of the interval the windows must cover (the largest utterance end
time, at least 0). -/
def totalDuration (t : List Utterance) : ℚ :=
  t.foldr (fun u acc => max u.end_sec acc) 0

/-- Modelled from the spec: one analysis window — ordinal index, the
slice `[start_sec, end_sec)`, and the concatenated text of every
utterance overlapping the slice. -/
structure Window where
  index : Nat
  start_sec : ℚ
  end_sec : ℚ
  text : String
deriving DecidableEq, Repr

/-- Modelled from the spec: the text carried by a window, concatenated
from all utterances overlapping `[ws, we)` (straddling utterances are
assigned to every window they overlap). -/
def windowText (t : List Utterance) (ws we : ℚ) : String :=
  String.intercalate " "
    ((t.filter fun u => decide (u.start_sec < we) && decide (ws < u.end_sec)).map
      Utterance.text)

/-- Modelled from the spec: the two fatal configuration errors of the
Windower — empty transcript and non-positive width. -/
inductive ConfigError where
  | emptyTranscript
  | invalidWidth
deriving DecidableEq, Repr

/-- Modelled from the spec: the number of windows, `ceil(duration / width)`. -/
def windowCount (dur width : ℚ) : Nat :=
  (⌈dur / width⌉).toNat

/-- Modelled from the spec: the window list the Windower produces for a
valid transcript — `ceil(duration / width)` contiguous windows of
nominal `width` seconds, the last one cut to the total duration. -/
def mkWindows (t : List Utterance) (width : ℚ) : List Window :=
  let dur := totalDuration t
  (List.range (windowCount dur width)).map fun i =>
    { index := i
      start_sec := (i : ℚ) * width
      end_sec := min (((i : ℚ) + 1) * width) dur
      text := windowText t ((i : ℚ) * width) (min (((i : ℚ) + 1) * width) dur) }

/-- Modelled from the spec: the Windower (missing backend component).
Fails with a configuration error exactly when the transcript is empty
or the width is non-positive; otherwise produces `mkWindows`. -/
def windower (t : List Utterance) (width : ℚ) :
    Except ConfigError (List Window) :=
  if t = [] then .error .emptyTranscript
  else if width ≤ 0 then .error .invalidWidth
  else .ok (mkWindows t width)

/-- Modelled from the spec: `clip(x, lo, hi)` as used in the Clarity
Aggregator example formula. -/
def clip (x lo hi : ℚ) : ℚ := min hi (max lo x)

/-- Modelled from the spec: mean of the per-window risk scores, taken as
0 for an empty window list so that an empty analysis aggregates to a
perfect score. -/
def meanRisk (risks : List ℚ) : ℚ :=
  if risks = [] then 0 else risks.sum / risks.length

/-- Modelled from the spec: the Clarity Aggregator score (missing
backend component), `100 − clip(mean_risk × scale, 0, 100)`. -/
def clarityScore (scale : ℚ) (risks : List ℚ) : ℚ :=
  100 - clip (meanRisk risks * scale) 0 100

/-- Modelled from the spec: the tier bands over the score — a total,
non-overlapping partition of `[0,100]` into a handful of labels. -/
def tierFor (score : ℚ) : String :=
  if score ≥ 80 then "Crystal clear"
  else if score ≥ 60 then "Mostly clear"
  else if score ≥ 40 then "Wait, what are we building?"
  else "Total confusion"

/-- Modelled from the spec: the filler-word list used by the local
Ramble Ratio computation (signal_helpers, missing backend component). -/
def fillerWords : List String :=
  ["um", "uh", "like", "basically", "actually", "literally", "so", "yeah"]

/-- Modelled from the spec: lower-cased whitespace tokenisation of the
window text. -/
def wordsOf (text : String) : List String :=
  (text.toLower.splitOn " ").filter fun w => w != ""

/-- Modelled from the spec: number of filler words among the tokens. -/
def fillerCount (ws : List String) : Nat :=
  (ws.filter fun w => fillerWords.contains w).length

/-- Modelled from the spec: number of distinct content (non-filler)
words among the tokens. -/
def distinctContent (ws : List String) : Nat :=
  ((ws.filter fun w => !fillerWords.contains w).dedup).length

/-- Modelled from the spec: the Ramble Ratio severity (missing backend
component `SignalHelpers.analyze_ramble`) — a bounded 0–5 value computed
from the window text alone, growing with the filler-word share of the
tokens and shrinking with the information density (distinct content
words over total words). -/
def rambleSeverity (text : String) : ℚ :=
  let ws := wordsOf text
  if ws.length = 0 then 0
  else
    let fillerShare : ℚ := (fillerCount ws : ℚ) / (ws.length : ℚ)
    let infoDensity : ℚ := (distinctContent ws : ℚ) / (ws.length : ℚ)
    clip (fillerShare * 5 + (1 - infoDensity) * 5) 0 5

/-- Modelled from the spec: the cross-window context handed to a signal
extractor — the forward-carried defined-terms set, the previous
discourse role, and whether the delegated reasoning service is
reachable. -/
structure ExtractContext where
  definedTerms : List String
  prevRole : Option String
  delegatedAvailable : Bool
deriving DecidableEq, Repr

/-- Modelled from the spec: the Ramble Ratio extractor as a
`Window × Context → severity` function.  It is purely local: the
context (including delegated-service availability) is ignored and the
severity is a function of the window text alone. -/
def rambleExtract (w : Window) (_ctx : ExtractContext) : ℚ :=
  rambleSeverity w.text

/-- Modelled from the spec: the delegated text-generation output for one
flagged window — label, fix and the three tone variants.  The delegated
call failing is modelled by `Option.none` at the call site. -/
structure GenOutcome where
  label : String
  fix : String
  kind : String
  honest : String
  brutal : String
deriving DecidableEq, Repr

/-- Modelled from the spec: take the generated string unless generation
failed or returned an empty string, in which case use the templated
default. -/
def orDefault (s : Option String) (d : String) : String :=
  match s with
  | some s => if s = "" then d else s
  | none => d

/-- Modelled from the spec: the templated, signal-type-specific default
label used when label generation fails. -/
def defaultLabel (signalType : String) : String :=
  "Clarity issue (" ++ signalType ++ ")"

/-- Modelled from the spec: the default fix — references a specific
term when evidence is available, else a generic structural
suggestion. -/
def defaultFix (keyTerm : Option String) : String :=
  match keyTerm with
  | some term => "Define " ++ term ++ " in one sentence before this segment."
  | none => "Restate this segment in one plain sentence before moving on."

/-- Modelled from the spec: the templated, signal-type-specific default
tone text used when tone generation fails. -/
def defaultTone (signalType : String) : String :=
  "This segment is likely to confuse the audience (" ++ signalType ++
    "). Tighten it."

/-- Modelled from the spec: a flagged window together with the evidence
the Issue Synthesizer consumes — its risk, the dominant signal type and
an optional key term from the signal evidence. -/
structure FlaggedWindow where
  index : Nat
  start_sec : ℚ
  end_sec : ℚ
  risk : ℚ
  signalType : String
  keyTerm : Option String
deriving DecidableEq, Repr

/-- Modelled from the spec: the Issue Synthesizer (missing backend
component).  Produces one segment for a flagged window; every text field
falls back to a non-empty templated default when the delegated
text-generation call fails (`gen = none`) or yields an empty string, the
timestamps are taken verbatim from the window, and the severity tier is
`high` above the second threshold and `medium` otherwise. -/
def synthesizeIssue (highThreshold : ℚ) (fw : FlaggedWindow)
    (gen : Option GenOutcome) : BackendSegment :=
  { segment_id := (fw.index : Int)
    start_sec := fw.start_sec
    end_sec := fw.end_sec
    risk := fw.risk
    severity := if fw.risk ≥ highThreshold then "high" else "medium"
    label := orDefault (gen.map GenOutcome.label) (defaultLabel fw.signalType)
    fix := orDefault (gen.map GenOutcome.fix) (defaultFix fw.keyTerm)
    tone := some
      { kind := some (orDefault (gen.map GenOutcome.kind) (defaultTone fw.signalType))
        honest := some (orDefault (gen.map GenOutcome.honest) (defaultTone fw.signalType))
        brutal := some (orDefault (gen.map GenOutcome.brutal) (defaultTone fw.signalType)) } }

/-- Modelled from the spec: the Clarity Report — overall score, tier and
the ordered segments. -/
structure ClarityReport where
  clarity_score : ℚ
  clarity_tier : String
  segments : List BackendSegment
deriving DecidableEq, Repr

/-- Modelled from the spec: the whole analysis run as one batch job —
window the transcript, score each window (the combined six-signal risk
is abstracted as `signals`), flag windows at or above the threshold,
synthesize one issue per flagged window, and aggregate the overall
score.  The run either completes with a full report or fails with the
Windower configuration error. -/
def runPipeline (signals : Window → ℚ) (threshold highThreshold scale : ℚ)
    (gen : Window → Option GenOutcome) (t : List Utterance) (width : ℚ) :
    Except ConfigError ClarityReport :=
  match windower t width with
  | .error e => .error e
  | .ok ws =>
      let risks := ws.map signals
      let flagged := ws.filter fun w => decide (signals w ≥ threshold)
      let score := clarityScore scale risks
      .ok { clarity_score := score
            clarity_tier := tierFor score
            segments := flagged.map fun w =>
              synthesizeIssue highThreshold
                ⟨w.index, w.start_sec, w.end_sec, signals w, "ramble_ratio", none⟩
                (gen w) }

end Backend

/-! ## Theorems -/

/-- C9: `formatTime` is total and correct on all numeric inputs: for
every non-negative finite value it renders `h:mm:ss` (minutes and
seconds zero-padded to two digits) exactly when the floored value is at
least 3600 and `m:ss` (seconds zero-padded) otherwise, all computed from
the floor; every negative, NaN or infinite input renders `0:00`.  Stated
as agreement of the source function with the claim-side restatement on
every JavaScript number. -/
theorem C9_formatTime_total_correct (x : JsNum) : formatTime x = formatTimeClaim x := by
  cases x with
  | finite q =>
      show (if q < 0 then "0:00" else formatTimeNat ⌊q⌋.toNat) =
        (if q < 0 then "0:00" else formatTimeClaimNat ⌊q⌋.toNat)
      by_cases h : q < 0
      · rw [if_pos h, if_pos h]
      · rw [if_neg h, if_neg h, formatTimeNat_eq_claim]
  | nan => rfl
  | posInf => rfl
  | negInf => rfl

/-- C3: for one fixed `BackendAnalysis` and any two intensity settings,
`mapBackendToIssues` yields issue lists identical in every field except
`description` — re-deriving the displayed issues from the cached
analysis changes only the wording, never ids, types, titles, timestamps,
segment ids, start/end seconds or fixes. -/
theorem C3_intensity_changes_only_description (i₁ i₂ : String) (a : BackendAnalysis) :
    (mapBackendToIssues i₁ a).map Issue.core = (mapBackendToIssues i₂ a).map Issue.core := by
  simp only [mapBackendToIssues, List.map_map]
  rfl

theorem severityToType_eq (s : String) :
    severityToType s = if s = "high" then IssueType.error else IssueType.warning := by
  unfold severityToType
  by_cases h : s = "high"
  · rw [if_pos h, if_pos h]
  · rw [if_neg h, if_neg h]
    by_cases h2 : s = "medium"
    · rw [if_pos h2]
    · rw [if_neg h2]

/-- C8: every issue derived by `mapBackendToIssues` has type `warning`
or `error` (`high` severity maps to `error`, every other severity string
to `warning`); the type `success` is never produced, so the green check
icon of `getIconForType` and the green timeline marker are unreachable
from analysis data. -/
theorem C8_no_success_type (intensity : String) (a : BackendAnalysis) (iss : Issue)
    (h : iss ∈ mapBackendToIssues intensity a) :
    (iss.type = IssueType.warning ∨ iss.type = IssueType.error) ∧
    iss.type ≠ IssueType.success ∧
    getIconForType (issueTypeString iss.type) ≠ Icon.successIcon ∧
    markerColor iss.type ≠ "bg-green-500" ∧
    (mapBackendToIssues intensity a).map Issue.type =
      a.segments.map (fun seg =>
        if seg.severity = "high" then IssueType.error else IssueType.warning) := by
  simp only [mapBackendToIssues, List.mem_map] at h
  obtain ⟨seg, _, rfl⟩ := h
  have htype : severityToType seg.severity = IssueType.error ∨
      severityToType seg.severity = IssueType.warning := by
    rw [severityToType_eq]
    by_cases h : seg.severity = "high"
    · left; rw [if_pos h]
    · right; rw [if_neg h]
  refine ⟨?_, ?_, ?_, ?_, ?_⟩
  · rcases htype with h | h <;> simp [h]
  · rcases htype with h | h <;> simp [h]
  · rcases htype with h | h <;> simp [h, issueTypeString, getIconForType]
  · rcases htype with h | h <;> simp [h, markerColor]
  · simp only [mapBackendToIssues, List.map_map]
    refine List.map_congr_left fun s _ => ?_
    exact severityToType_eq s.severity

/-- Witness for C8 at a concrete analysis: the single `high` segment
maps to an `error` issue with the red icon and marker. -/
theorem C8_no_success_type_witness :
    ({ id := "1", type := .error, title := "L", description := "h",
       timestamp := "0:10", segmentId := 1, startSec := 10, endSec := 20,
       fix := "F" } : Issue) ∈
      mapBackendToIssues "1"
        ⟨"r", "v", "t", 63, "tier",
          [{ segment_id := 1, start_sec := 10, end_sec := 20, risk := 5,
             severity := "high", label := "L", fix := "F",
             tone := some ⟨some "k", some "h", some "b"⟩ }]⟩ ∧
    getIconForType (issueTypeString IssueType.error) ≠ Icon.successIcon := by
  have hmem :
      ({ id := "1", type := .error, title := "L", description := "h",
         timestamp := "0:10", segmentId := 1, startSec := 10, endSec := 20,
         fix := "F" } : Issue) ∈
        mapBackendToIssues "1"
          ⟨"r", "v", "t", 63, "tier",
            [{ segment_id := 1, start_sec := 10, end_sec := 20, risk := 5,
               severity := "high", label := "L", fix := "F",
               tone := some ⟨some "k", some "h", some "b"⟩ }]⟩ := by
    decide
  exact ⟨hmem, ((C8_no_success_type _ _ _ hmem).2.2.1 : _)⟩

theorem ne_empty_of_length_pos (s : String) (h : 0 < s.length) : s ≠ "" := by
  intro hs
  rw [hs] at h
  exact absurd h (by decide)

theorem orDefault_ne_empty (o : Option String) (d : String) (hd : d ≠ "") :
    Backend.orDefault o d ≠ "" := by
  cases o with
  | none => exact hd
  | some s =>
      show (if s = "" then d else s) ≠ ""
      by_cases h : s = ""
      · rw [if_pos h]; exact hd
      · rw [if_neg h]; exact h

theorem defaultLabel_ne_empty (s : String) : Backend.defaultLabel s ≠ "" := by
  unfold Backend.defaultLabel
  apply ne_empty_of_length_pos
  rw [String.length_append, String.length_append]
  have h : 0 < "Clarity issue (".length := by decide
  omega

theorem defaultFix_ne_empty (k : Option String) : Backend.defaultFix k ≠ "" := by
  unfold Backend.defaultFix
  cases k with
  | none => decide
  | some term =>
      apply ne_empty_of_length_pos
      rw [String.length_append, String.length_append]
      have h : 0 < "Define ".length := by decide
      omega

theorem defaultTone_ne_empty (s : String) : Backend.defaultTone s ≠ "" := by
  unfold Backend.defaultTone
  apply ne_empty_of_length_pos
  rw [String.length_append, String.length_append]
  have h : 0 < "This segment is likely to confuse the audience (".length := by decide
  omega

/-- C1: every segment produced by the Issue Synthesizer — including when
the delegated text-generation call fails (`gen = none`) or returns empty
strings — has a non-empty `label`, a non-empty `fix`, and a `tone` map
with all three keys present and non-empty; consequently `pickTone` on
such a segment returns the selected tone text at every intensity and
never engages its fallback to `fix` or `label`. -/
theorem C1_issue_fields_always_populated (highThreshold : ℚ)
    (fw : Backend.FlaggedWindow) (gen : Option Backend.GenOutcome) (intensity : String) :
    (Backend.synthesizeIssue highThreshold fw gen).label ≠ "" ∧
    (Backend.synthesizeIssue highThreshold fw gen).fix ≠ "" ∧
    (∃ t : ToneMap, (Backend.synthesizeIssue highThreshold fw gen).tone = some t ∧
      (∃ sk, t.kind = some sk ∧ sk ≠ "") ∧
      (∃ sh, t.honest = some sh ∧ sh ≠ "") ∧
      (∃ sb, t.brutal = some sb ∧ sb ≠ "")) ∧
    ¬ pickToneFellBack intensity (Backend.synthesizeIssue highThreshold fw gen) ∧
    (∃ s, (Backend.synthesizeIssue highThreshold fw gen).tone.bind (toneKey intensity) = some s ∧
      s ≠ "" ∧ pickTone intensity (Backend.synthesizeIssue highThreshold fw gen) = s) := by
  have hlabel : (Backend.synthesizeIssue highThreshold fw gen).label ≠ "" :=
    orDefault_ne_empty _ _ (defaultLabel_ne_empty fw.signalType)
  have hfix : (Backend.synthesizeIssue highThreshold fw gen).fix ≠ "" :=
    orDefault_ne_empty _ _ (defaultFix_ne_empty fw.keyTerm)
  have hkind : Backend.orDefault (gen.map Backend.GenOutcome.kind)
      (Backend.defaultTone fw.signalType) ≠ "" :=
    orDefault_ne_empty _ _ (defaultTone_ne_empty fw.signalType)
  have hhonest : Backend.orDefault (gen.map Backend.GenOutcome.honest)
      (Backend.defaultTone fw.signalType) ≠ "" :=
    orDefault_ne_empty _ _ (defaultTone_ne_empty fw.signalType)
  have hbrutal : Backend.orDefault (gen.map Backend.GenOutcome.brutal)
      (Backend.defaultTone fw.signalType) ≠ "" :=
    orDefault_ne_empty _ _ (defaultTone_ne_empty fw.signalType)
  refine ⟨hlabel, hfix, ⟨_, rfl, ⟨_, rfl, hkind⟩, ⟨_, rfl, hhonest⟩, ⟨_, rfl, hbrutal⟩⟩, ?_, ?_⟩
  · unfold pickToneFellBack Backend.synthesizeIssue toneKey
    by_cases h0 : intensity = "0"
    · simp [h0]
    · by_cases h2 : intensity = "2" <;> simp [h0, h2]
  · unfold pickTone Backend.synthesizeIssue toneKey
    by_cases h0 : intensity = "0"
    · exact ⟨_, by simp [h0], hkind, by simp [h0]⟩
    · by_cases h2 : intensity = "2"
      · exact ⟨_, by simp [h0, h2], hbrutal, by simp [h0, h2]⟩
      · exact ⟨_, by simp [h0, h2], hhonest, by simp [h0, h2]⟩

/-- C6: the Ramble Ratio extractor is deterministic and purely local —
two windows with identical text yield identical severity under any two
cross-window contexts, including any state of delegated-service
availability; the severity is a function of the window text alone. -/
theorem C6_ramble_deterministic (w₁ w₂ : Backend.Window)
    (c₁ c₂ : Backend.ExtractContext) (h : w₁.text = w₂.text) :
    Backend.rambleExtract w₁ c₁ = Backend.rambleExtract w₂ c₂ := by
  unfold Backend.rambleExtract
  rw [h]

/-- Witness for C6: two different windows sharing the text, evaluated
under contexts that differ in every component, give equal severity. -/
theorem C6_ramble_deterministic_witness :
    Backend.rambleExtract ⟨0, 0, 10, "um this is basically a demo"⟩ ⟨[], none, true⟩ =
      Backend.rambleExtract ⟨3, 20, 30, "um this is basically a demo"⟩
        ⟨["api"], some "demo", false⟩ :=
  C6_ramble_deterministic _ _ _ _ rfl

/-- C7 counterexample: when the backend answers with `res.ok` but a body
that fails to parse (`payload = null`), the analyze route returns
`success: true` with `analysis: null` at status 200 — a half-populated
success response, refuting the claim that the route never returns
one. -/
theorem C7_counterexample :
    (analyzePOST (some "vid-1") fun _ => ⟨true, 200, none⟩).response.success = true ∧
    (analyzePOST (some "vid-1") fun _ => ⟨true, 200, none⟩).response.analysis = none ∧
    (analyzePOST (some "vid-1") fun _ => ⟨true, 200, none⟩).response.status = 200 ∧
    (analyzePOST (some "vid-1") fun _ => ⟨true, 200, none⟩).backendCalled = true :=
  ⟨rfl, rfl, rfl, rfl⟩

/-- C7 as amended: a request whose body is unparseable, lacks a
`video_id`, or carries a falsy (empty-string) `video_id` gets a single
HTTP 400 error `Missing video_id` and is not forwarded to the backend; a
request with a non-empty `video_id` is forwarded, and the route returns
`{success:true, analysis:p}` at 200 when the backend answers ok with a
parseable body `p`, and `{success:false, error}` carrying the backend
status (with `analysis` absent) when the backend answers not-ok.  Only
when the backend answers ok with an unparseable body does the route
return the half-populated `{success:true, analysis:null}`. -/
theorem C7_analyze_route_amended (backend : String → BackendHttpResp) (vid : String) :
    analyzePOST none backend = ⟨⟨400, false, some "Missing video_id", none⟩, false⟩ ∧
    analyzePOST (some "") backend = ⟨⟨400, false, some "Missing video_id", none⟩, false⟩ ∧
    (vid ≠ "" →
      (analyzePOST (some vid) backend).backendCalled = true ∧
      (∀ p, (backend vid).ok = true → (backend vid).payload = some p →
        (analyzePOST (some vid) backend).response = ⟨200, true, none, some p⟩) ∧
      ((backend vid).ok = false →
        (analyzePOST (some vid) backend).response.status = (backend vid).status ∧
        (analyzePOST (some vid) backend).response.success = false ∧
        (∃ e, (analyzePOST (some vid) backend).response.error = some e) ∧
        (analyzePOST (some vid) backend).response.analysis = none)) := by
  refine ⟨rfl, rfl, fun hvid => ?_⟩
  refine ⟨?_, ?_, ?_⟩
  · simp only [analyzePOST]
    rw [if_neg hvid]
    by_cases h : (backend vid).ok = true
    · rw [if_pos h]
    · rw [if_neg h]
  · intro p hok hp
    simp only [analyzePOST]
    rw [if_neg hvid, if_pos hok, hp]
  · intro hok
    simp only [analyzePOST]
    rw [if_neg hvid, if_neg (by rw [hok]; exact Bool.false_ne_true)]
    exact ⟨rfl, rfl, ⟨_, rfl⟩, rfl⟩

/-- Witness for C7 as amended: a backend answering 200 with a parseable
body produces the full success response for a non-empty `video_id`; a
backend answering 502 produces a failure response carrying 502; an
empty-string `video_id` gets the 400 without the backend being
consulted. -/
theorem C7_analyze_route_amended_witness :
    (analyzePOST (some "v") fun _ => ⟨true, 200, some ⟨none, none⟩⟩).response =
      ⟨200, true, none, some ⟨none, none⟩⟩ ∧
    (analyzePOST (some "v") fun _ => ⟨false, 502, some ⟨some "boom", none⟩⟩).response.status = 502 ∧
    analyzePOST (some "") (fun _ => ⟨true, 200, some ⟨none, none⟩⟩) =
      ⟨⟨400, false, some "Missing video_id", none⟩, false⟩ :=
  ⟨(((C7_analyze_route_amended (fun _ => ⟨true, 200, some ⟨none, none⟩⟩) "v").2.2
      (by decide)).2.1 ⟨none, none⟩ rfl rfl),
   ((((C7_analyze_route_amended (fun _ => ⟨false, 502, some ⟨some "boom", none⟩⟩) "v").2.2
      (by decide)).2.2 rfl).1),
   (C7_analyze_route_amended (fun _ => ⟨true, 200, some ⟨none, none⟩⟩) "v").2.1⟩

/-- C10: the video route returns 404 with `Video not found` when the
file is absent from the uploads directory, 200 with `Content-Length`
equal to the file size and the extension-derived `Content-Type` when it
is present, and 500 with `Failed to load video` when the filesystem
throws; the extension mapping sends webm, ogg, mov and avi (case
insensitively) to their video MIME types and everything else to
`video/mp4`. -/
theorem C10_video_route (filename : String) (fs : String → FsOutcome) :
    (fs filename = .absent →
      videoGET filename fs = ⟨404, none, none, some "Video not found"⟩) ∧
    (∀ size, fs filename = .present size →
      videoGET filename fs = ⟨200, some (contentTypeFor filename), some size, none⟩) ∧
    (fs filename = .faulted →
      videoGET filename fs = ⟨500, none, none, some "Failed to load video"⟩) ∧
    contentTypeFor "clip.webm" = "video/webm" ∧
    contentTypeFor "clip.OGG" = "video/ogg" ∧
    contentTypeFor "clip.mov" = "video/quicktime" ∧
    contentTypeFor "clip.avi" = "video/x-msvideo" ∧
    contentTypeFor "clip.mp4" = "video/mp4" ∧
    contentTypeFor "archive.tar.gz" = "video/mp4" ∧
    contentTypeFor "noextension" = "video/mp4" := by
  refine ⟨?_, ?_, ?_, by decide, by decide, by decide, by decide, by decide, by decide, by decide⟩
  · intro h; unfold videoGET; rw [h]
  · intro size h; unfold videoGET; rw [h]
  · intro h; unfold videoGET; rw [h]

/-- Witness for C10 at concrete filesystems: a present 1234-byte
`demo.mov` is served as 200 `video/quicktime`, an absent file gives 404,
a faulting filesystem gives 500. -/
theorem C10_video_route_witness :
    videoGET "demo.mov" (fun _ => .present 1234) =
      ⟨200, some "video/quicktime", some 1234, none⟩ ∧
    videoGET "demo.mov" (fun _ => .absent) = ⟨404, none, none, some "Video not found"⟩ ∧
    videoGET "demo.mov" (fun _ => .faulted) = ⟨500, none, none, some "Failed to load video"⟩ := by
  refine ⟨?_, ?_, ?_⟩
  · exact ((C10_video_route "demo.mov" fun _ => .present 1234).2.1 1234 rfl).trans (by decide)
  · exact (C10_video_route "demo.mov" fun _ => .absent).1 rfl
  · exact (C10_video_route "demo.mov" fun _ => .faulted).2.2.1 rfl

theorem clarityScore_antitone (scale : ℚ) (hs : 0 ≤ scale) (r₁ r₂ : List ℚ)
    (h : Backend.meanRisk r₁ ≤ Backend.meanRisk r₂) :
    Backend.clarityScore scale r₂ ≤ Backend.clarityScore scale r₁ := by
  unfold Backend.clarityScore Backend.clip
  have h1 : Backend.meanRisk r₁ * scale ≤ Backend.meanRisk r₂ * scale :=
    mul_le_mul_of_nonneg_right h hs
  have h2 : max 0 (Backend.meanRisk r₁ * scale) ≤ max 0 (Backend.meanRisk r₂ * scale) :=
    max_le_max le_rfl h1
  have h3 : min 100 (max 0 (Backend.meanRisk r₁ * scale)) ≤
      min 100 (max 0 (Backend.meanRisk r₂ * scale)) :=
    min_le_min le_rfl h2
  linarith

theorem meanRisk_insert_mono (pre post : List ℚ) (r r' : ℚ) (hr : r ≤ r') :
    Backend.meanRisk (pre ++ r :: post) ≤ Backend.meanRisk (pre ++ r' :: post) := by
  unfold Backend.meanRisk
  rw [if_neg (by simp), if_neg (by simp)]
  have hlen : (pre ++ r :: post).length = (pre ++ r' :: post).length := by simp
  rw [hlen]
  have hpos : (0 : ℚ) < ((pre ++ r' :: post).length : ℚ) := by
    have : 0 < (pre ++ r' :: post).length := by simp
    exact_mod_cast this
  apply (div_le_div_iff_of_pos_right hpos).mpr
  simp only [List.sum_append, List.sum_cons]
  linarith

theorem totalDuration_nonneg (t : List Backend.Utterance) :
    0 ≤ Backend.totalDuration t := by
  unfold Backend.totalDuration
  induction t with
  | nil => exact le_refl 0
  | cons u rest ih => exact le_max_of_le_right ih

theorem lt_windowCount_mul {dur width : ℚ} (hw : 0 < width) {i : ℕ}
    (hi : i < Backend.windowCount dur width) : (i : ℚ) * width < dur := by
  unfold Backend.windowCount at hi
  have h1 : (i : ℤ) < ⌈dur / width⌉ := Int.lt_toNat.mp hi
  have h2 : (i : ℚ) < dur / width := by exact_mod_cast Int.lt_ceil.mp h1
  exact (lt_div_iff₀ hw).mp h2

theorem dur_le_windowCount_mul {dur width : ℚ} (hw : 0 < width) (hd : 0 ≤ dur) :
    dur ≤ (Backend.windowCount dur width : ℚ) * width := by
  unfold Backend.windowCount
  have h0 : (0 : ℤ) ≤ ⌈dur / width⌉ := Int.ceil_nonneg (div_nonneg hd hw.le)
  have hcast : ((⌈dur / width⌉.toNat : ℕ) : ℚ) = ((⌈dur / width⌉ : ℤ) : ℚ) := by
    exact_mod_cast Int.toNat_of_nonneg h0
  rw [hcast]
  exact (div_le_iff₀ hw).mp (Int.le_ceil _)

theorem mkWindows_length (t : List Backend.Utterance) (width : ℚ) :
    (Backend.mkWindows t width).length =
      Backend.windowCount (Backend.totalDuration t) width := by
  simp [Backend.mkWindows]

theorem mkWindows_get (t : List Backend.Utterance) (width : ℚ) (i : ℕ)
    (h : i < (Backend.mkWindows t width).length) :
    (Backend.mkWindows t width).get ⟨i, h⟩ =
      { index := i
        start_sec := (i : ℚ) * width
        end_sec := min (((i : ℚ) + 1) * width) (Backend.totalDuration t)
        text := Backend.windowText t ((i : ℚ) * width)
          (min (((i : ℚ) + 1) * width) (Backend.totalDuration t)) } := by
  simp [Backend.mkWindows, List.get_eq_getElem]

/-- C2: for every valid transcript (non-empty, positive width) the
Windower succeeds, produces exactly `ceil(duration / width)` windows,
window `i` starts at `i·width` and is non-empty and bounded by the
duration, consecutive windows meet with no gap or overlap, the first
window starts at 0 and the last ends at the duration, and every point of
`[0, duration)` lies in exactly one window. -/
theorem C2_windower_partition (t : List Backend.Utterance) (width : ℚ)
    (ht : t ≠ []) (hw : 0 < width) :
    Backend.windower t width = .ok (Backend.mkWindows t width) ∧
    (Backend.mkWindows t width).length =
      Backend.windowCount (Backend.totalDuration t) width ∧
    (∀ i (h : i < (Backend.mkWindows t width).length),
      ((Backend.mkWindows t width).get ⟨i, h⟩).start_sec = (i : ℚ) * width ∧
      ((Backend.mkWindows t width).get ⟨i, h⟩).start_sec <
        ((Backend.mkWindows t width).get ⟨i, h⟩).end_sec ∧
      ((Backend.mkWindows t width).get ⟨i, h⟩).end_sec ≤ Backend.totalDuration t) ∧
    (∀ i (h1 : i < (Backend.mkWindows t width).length)
        (h2 : i + 1 < (Backend.mkWindows t width).length),
      ((Backend.mkWindows t width).get ⟨i, h1⟩).end_sec =
        ((Backend.mkWindows t width).get ⟨i + 1, h2⟩).start_sec) ∧
    (∀ h0 : 0 < (Backend.mkWindows t width).length,
      ((Backend.mkWindows t width).get ⟨0, h0⟩).start_sec = 0 ∧
      ((Backend.mkWindows t width).get
          ⟨(Backend.mkWindows t width).length - 1, Nat.sub_lt h0 Nat.one_pos⟩).end_sec =
        Backend.totalDuration t) ∧
    (∀ x : ℚ, 0 ≤ x → x < Backend.totalDuration t →
      ∃! i : Fin (Backend.mkWindows t width).length,
        ((Backend.mkWindows t width).get i).start_sec ≤ x ∧
          x < ((Backend.mkWindows t width).get i).end_sec) := by
  have hdur : 0 ≤ Backend.totalDuration t := totalDuration_nonneg t
  refine ⟨?_, mkWindows_length t width, ?_, ?_, ?_, ?_⟩
  · unfold Backend.windower
    rw [if_neg ht, if_neg (not_le.mpr hw)]
  · intro i h
    rw [mkWindows_get]
    have hcount : i < Backend.windowCount (Backend.totalDuration t) width := by
      rw [← mkWindows_length t width]; exact h
    refine ⟨rfl, ?_, min_le_right _ _⟩
    refine lt_min ?_ (lt_windowCount_mul hw hcount)
    have : (i : ℚ) < (i : ℚ) + 1 := by linarith
    exact mul_lt_mul_of_pos_right this hw
  · intro i h1 h2
    rw [mkWindows_get, mkWindows_get]
    have hcount : i + 1 < Backend.windowCount (Backend.totalDuration t) width := by
      rw [← mkWindows_length t width]; exact h2
    have hlt : ((i + 1 : ℕ) : ℚ) * width < Backend.totalDuration t :=
      lt_windowCount_mul hw hcount
    have hcast : ((i + 1 : ℕ) : ℚ) = (i : ℚ) + 1 := by push_cast; ring
    rw [hcast] at hlt
    show min (((i : ℚ) + 1) * width) (Backend.totalDuration t) = ((i + 1 : ℕ) : ℚ) * width
    rw [hcast]
    exact min_eq_left hlt.le
  · intro h0
    constructor
    · rw [mkWindows_get]
      show ((0 : ℕ) : ℚ) * width = 0
      simp
    · rw [mkWindows_get]
      have hlen : (Backend.mkWindows t width).length =
          Backend.windowCount (Backend.totalDuration t) width := mkWindows_length t width
      have h1le : 1 ≤ (Backend.mkWindows t width).length := h0
      have hc1 : (((Backend.mkWindows t width).length - 1 : ℕ) : ℚ) =
          ((Backend.mkWindows t width).length : ℚ) - 1 := Nat.cast_sub h1le
      show min (((((Backend.mkWindows t width).length - 1 : ℕ) : ℚ) + 1) * width)
        (Backend.totalDuration t) = Backend.totalDuration t
      have hcast : (((Backend.mkWindows t width).length - 1 : ℕ) : ℚ) + 1 =
          ((Backend.mkWindows t width).length : ℚ) := by rw [hc1]; ring
      rw [hcast, hlen]
      exact min_eq_right (dur_le_windowCount_mul hw hdur)
  · intro x hx0 hxd
    have hxw : 0 ≤ x / width := div_nonneg hx0 hw.le
    have hfl0 : 0 ≤ ⌊x / width⌋ := Int.floor_nonneg.mpr hxw
    set i0 := ⌊x / width⌋.toNat with hi0def
    have hi0cast : ((i0 : ℕ) : ℚ) = ((⌊x / width⌋ : ℤ) : ℚ) := by
      rw [hi0def]; exact_mod_cast Int.toNat_of_nonneg hfl0
    have hle : ((i0 : ℕ) : ℚ) ≤ x / width := by
      rw [hi0cast]; exact Int.floor_le _
    have hltp1 : x / width < ((i0 : ℕ) : ℚ) + 1 := by
      rw [hi0cast]; exact Int.lt_floor_add_one _
    have hstart : ((i0 : ℕ) : ℚ) * width ≤ x := (le_div_iff₀ hw).mp hle
    have hend : x < (((i0 : ℕ) : ℚ) + 1) * width := (div_lt_iff₀ hw).mp hltp1
    have hi0n : i0 < Backend.windowCount (Backend.totalDuration t) width := by
      by_contra hcon
      push_neg at hcon
      have hmul : (Backend.windowCount (Backend.totalDuration t) width : ℚ) * width ≤
          (i0 : ℚ) * width := by
        have hcast2 : ((Backend.windowCount (Backend.totalDuration t) width : ℕ) : ℚ) ≤
            (i0 : ℚ) := by exact_mod_cast hcon
        exact mul_le_mul_of_nonneg_right hcast2 hw.le
      have hxlt : x < (Backend.windowCount (Backend.totalDuration t) width : ℚ) * width :=
        lt_of_lt_of_le hxd (dur_le_windowCount_mul hw hdur)
      linarith
    have hi0len : i0 < (Backend.mkWindows t width).length := by
      rw [mkWindows_length t width]; exact hi0n
    refine ⟨⟨i0, hi0len⟩, ⟨?_, ?_⟩, ?_⟩
    · rw [mkWindows_get]; exact hstart
    · rw [mkWindows_get]; exact lt_min hend hxd
    · rintro ⟨j, hj⟩ ⟨hjs, hje⟩
      rw [mkWindows_get] at hjs hje
      have hje2 : x < ((j : ℚ) + 1) * width := by
        have hminle : min (((j : ℚ) + 1) * width) (Backend.totalDuration t) ≤
            ((j : ℚ) + 1) * width := min_le_left _ _
        exact lt_of_lt_of_le hje hminle
      have h1 : (j : ℚ) ≤ x / width := (le_div_iff₀ hw).mpr hjs
      have h2 : x / width < (j : ℚ) + 1 := (div_lt_iff₀ hw).mpr hje2
      have hfloor : ⌊x / width⌋ = (j : ℤ) := by
        rw [Int.floor_eq_iff]
        constructor
        · exact_mod_cast h1
        · exact_mod_cast h2
      have hji : i0 = j := by
        rw [hi0def, hfloor]; exact Int.toNat_natCast j
      exact Fin.ext hji.symm

/-- Witness for C2 at a concrete transcript: a single 25-second
utterance windowed at 10 seconds (three windows: 0–10, 10–20, 20–25). -/
theorem C2_windower_partition_witness :
    ([(⟨0, 25, "hello"⟩ : Backend.Utterance)] ≠ []) ∧ ((0 : ℚ) < 10) ∧
    (Backend.windower [⟨0, 25, "hello"⟩] 10 =
        .ok (Backend.mkWindows [⟨0, 25, "hello"⟩] 10) ∧
      (Backend.mkWindows [⟨0, 25, "hello"⟩] 10).length =
        Backend.windowCount (Backend.totalDuration [⟨0, 25, "hello"⟩]) 10 ∧
      (∀ i (h : i < (Backend.mkWindows [⟨0, 25, "hello"⟩] 10).length),
        ((Backend.mkWindows [⟨0, 25, "hello"⟩] 10).get ⟨i, h⟩).start_sec = (i : ℚ) * 10 ∧
        ((Backend.mkWindows [⟨0, 25, "hello"⟩] 10).get ⟨i, h⟩).start_sec <
          ((Backend.mkWindows [⟨0, 25, "hello"⟩] 10).get ⟨i, h⟩).end_sec ∧
        ((Backend.mkWindows [⟨0, 25, "hello"⟩] 10).get ⟨i, h⟩).end_sec ≤
          Backend.totalDuration [⟨0, 25, "hello"⟩]) ∧
      (∀ i (h1 : i < (Backend.mkWindows [⟨0, 25, "hello"⟩] 10).length)
          (h2 : i + 1 < (Backend.mkWindows [⟨0, 25, "hello"⟩] 10).length),
        ((Backend.mkWindows [⟨0, 25, "hello"⟩] 10).get ⟨i, h1⟩).end_sec =
          ((Backend.mkWindows [⟨0, 25, "hello"⟩] 10).get ⟨i + 1, h2⟩).start_sec) ∧
      (∀ h0 : 0 < (Backend.mkWindows [⟨0, 25, "hello"⟩] 10).length,
        ((Backend.mkWindows [⟨0, 25, "hello"⟩] 10).get ⟨0, h0⟩).start_sec = 0 ∧
        ((Backend.mkWindows [⟨0, 25, "hello"⟩] 10).get
            ⟨(Backend.mkWindows [⟨0, 25, "hello"⟩] 10).length - 1,
              Nat.sub_lt h0 Nat.one_pos⟩).end_sec =
          Backend.totalDuration [⟨0, 25, "hello"⟩]) ∧
      (∀ x : ℚ, 0 ≤ x → x < Backend.totalDuration [⟨0, 25, "hello"⟩] →
        ∃! i : Fin (Backend.mkWindows [⟨0, 25, "hello"⟩] 10).length,
          ((Backend.mkWindows [⟨0, 25, "hello"⟩] 10).get i).start_sec ≤ x ∧
            x < ((Backend.mkWindows [⟨0, 25, "hello"⟩] 10).get i).end_sec)) :=
  ⟨by simp, by norm_num,
    C2_windower_partition [⟨0, 25, "hello"⟩] 10 (by simp) (by norm_num)⟩

theorem meanRisk_append_flagged (l : List ℚ) (rf : ℚ) (hl : l ≠ [])
    (hrf : Backend.meanRisk l ≤ rf) :
    Backend.meanRisk l ≤ Backend.meanRisk (l ++ [rf]) := by
  unfold Backend.meanRisk at hrf ⊢
  rw [if_neg hl] at hrf
  rw [if_neg hl, if_neg (by simp)]
  have hn : 0 < (l.length : ℚ) := by
    have h := List.length_pos.mpr hl
    exact_mod_cast h
  have hsum : l.sum ≤ rf * (l.length : ℚ) := (div_le_iff₀ hn).mp hrf
  have hlen : (((l ++ [rf]).length : ℕ) : ℚ) = (l.length : ℚ) + 1 := by
    simp
  rw [hlen]
  have hn1 : 0 < (l.length : ℚ) + 1 := by linarith
  rw [div_le_div_iff₀ hn hn1]
  have hsum2 : (l ++ [rf]).sum = l.sum + rf := by
    simp
  rw [hsum2]
  nlinarith [hsum]

/-- C5 counterexample: with the spec formula
`score = 100 − clip(mean_risk × scale, 0, 100)`, adding one more flagged
window (risk 4, at the flag threshold 4) to a run whose only window has
risk 10 raises the score from 90 to 93 — so adding a flagged window can
increase the overall clarity score, refuting the claim as stated. -/
theorem C5_counterexample :
    (4 : ℚ) ≥ 4 ∧
    Backend.clarityScore 1 [10] < Backend.clarityScore 1 [10, 4] := by
  constructor
  · norm_num
  · have h1 : Backend.meanRisk [10] = 10 := by
      unfold Backend.meanRisk
      rw [if_neg (by simp)]
      norm_num
    have h2 : Backend.meanRisk [10, 4] = 7 := by
      unfold Backend.meanRisk
      rw [if_neg (by simp)]
      norm_num [List.sum_cons, List.sum_nil]
    show (100 : ℚ) - Backend.clip (Backend.meanRisk [10] * 1) 0 100 <
      100 - Backend.clip (Backend.meanRisk [10, 4] * 1) 0 100
    rw [h1, h2]
    norm_num [Backend.clip]

/-- C5 as amended: the aggregator score is monotone in each window risk
— raising any single risk, all else equal, never increases the score —
and appending one more flagged window never increases the score provided
the risk of the new window is at least the current mean risk (without that
proviso the mean-based formula lets a low-risk flagged window raise the
score, as the counterexample shows). -/
theorem C5_aggregator_monotone_amended (scale r r' rf : ℚ) (pre post l : List ℚ)
    (hs : 0 ≤ scale) (hr : r ≤ r') (hl : l ≠ []) (hrf : Backend.meanRisk l ≤ rf) :
    Backend.clarityScore scale (pre ++ r' :: post) ≤
      Backend.clarityScore scale (pre ++ r :: post) ∧
    Backend.clarityScore scale (l ++ [rf]) ≤ Backend.clarityScore scale l :=
  ⟨clarityScore_antitone scale hs _ _ (meanRisk_insert_mono pre post r r' hr),
   clarityScore_antitone scale hs _ _ (meanRisk_append_flagged l rf hl hrf)⟩

theorem meanRisk_five_seven_le : Backend.meanRisk [5, 7] ≤ 9 := by
  unfold Backend.meanRisk
  rw [if_neg (by simp)]
  norm_num [List.sum_cons, List.sum_nil]

/-- Witness for C5 as amended at concrete risk lists. -/
theorem C5_aggregator_monotone_amended_witness :
    ((0 : ℚ) ≤ 1) ∧ ((2 : ℚ) ≤ 3) ∧ (([5, 7] : List ℚ) ≠ []) ∧
    (Backend.meanRisk [5, 7] ≤ 9) ∧
    (Backend.clarityScore 1 ([1] ++ 3 :: [4]) ≤ Backend.clarityScore 1 ([1] ++ 2 :: [4]) ∧
      Backend.clarityScore 1 ([5, 7] ++ [9]) ≤ Backend.clarityScore 1 [5, 7]) :=
  ⟨by norm_num, by norm_num, by simp, meanRisk_five_seven_le,
    C5_aggregator_monotone_amended 1 2 3 9 [1] [4] [5, 7] (by norm_num) (by norm_num)
      (by simp) meanRisk_five_seven_le⟩

/-- C4 counterexample: under the Windower contract of §4.1 (empty
transcript is a configuration error) the pipeline run on the empty
transcript fails with that error instead of completing, so the empty
transcript does not yield a Clarity Report with `clarity_score = 100` —
the two spec statements bundled in this claim contradict each other. -/
theorem C4_counterexample :
    Backend.runPipeline (fun w => Backend.rambleSeverity w.text) 4 7 1
      (fun _ => none) [] 10 = .error .emptyTranscript := rfl

/-- C4 as amended: an empty transcript makes the run fail with the
single explicit Windower configuration error (no report, no score); a
report with `clarity_score = 100` and empty `segments` is produced for a
non-empty transcript of zero duration, for any signal evaluation,
thresholds and text generation. -/
theorem C4_empty_transcript_amended (signals : Backend.Window → ℚ)
    (threshold highThreshold scale : ℚ)
    (gen : Backend.Window → Option Backend.GenOutcome)
    (t : List Backend.Utterance) (width : ℚ)
    (ht : t ≠ []) (hw : 0 < width) (hd : Backend.totalDuration t = 0) :
    Backend.runPipeline signals threshold highThreshold scale gen t width =
      .ok ⟨100, Backend.tierFor 100, []⟩ ∧
    Backend.runPipeline signals threshold highThreshold scale gen [] width =
      .error .emptyTranscript := by
  constructor
  · have hwin : Backend.windower t width = .ok (Backend.mkWindows t width) := by
      unfold Backend.windower
      rw [if_neg ht, if_neg (not_le.mpr hw)]
    have hempty : Backend.mkWindows t width = [] := by
      unfold Backend.mkWindows Backend.windowCount
      rw [hd]
      simp
    have hscore : Backend.clarityScore scale [] = 100 := by
      unfold Backend.clarityScore Backend.meanRisk Backend.clip
      norm_num
    unfold Backend.runPipeline
    rw [hwin, hempty]
    simp [hscore]
  · rfl

/-- Witness for C4 as amended: a transcript with a single instantaneous
utterance (duration 0) yields the perfect empty report, and the empty
transcript yields the configuration error. -/
theorem C4_empty_transcript_amended_witness :
    ([(⟨0, 0, "hi"⟩ : Backend.Utterance)] ≠ []) ∧ ((0 : ℚ) < 10) ∧
    (Backend.totalDuration [(⟨0, 0, "hi"⟩ : Backend.Utterance)] = 0) ∧
    (Backend.runPipeline (fun w => Backend.rambleSeverity w.text) 4 7 1 (fun _ => none)
        [⟨0, 0, "hi"⟩] 10 = .ok ⟨100, Backend.tierFor 100, []⟩ ∧
      Backend.runPipeline (fun w => Backend.rambleSeverity w.text) 4 7 1 (fun _ => none)
        [] 10 = .error .emptyTranscript) :=
  ⟨by simp, by norm_num, by decide,
    C4_empty_transcript_amended _ 4 7 1 _ _ 10 (by simp) (by norm_num) (by decide)⟩

end WaitWhat
